import Mathlib

/-!
# Verification of the gpioman GPIO line manager (src/gpio-manager/gpioman.c)

Shallow embedding of the per-line pulse state machine of `gpioman.c`:
the `gpio_line_state` record, the timer callbacks `hr_interval_cb` /
`lr_interval_cb`, the frequency translator `set_gls_frequency`, the sysfs
read/write dispatchers `read_sysfs_attribute` / `write_sysfs_attribute`,
the initial state set up by `initialize_gls`, and the kobject-driven
teardown `gpio_line_state_release_func`.

Modelling conventions:
* C `int` fields hold only non-negative values on every path reachable
  through the validated sysfs interface, so they are embedded as `Nat`
  (theorems about unbounded iteration carry an explicit `< 2 ^ 31` bound
  where C overflow could otherwise matter).
* Side effects on the hardware and on the timer (`gpiod_set_value`,
  `hrtimer_start`/`mod_timer`, `hrtimer_cancel`/`del_timer`, `gpiod_put`)
  are recorded as an ordered event list.
* `BUG_ON` (a fatal kernel assertion) is embedded as an `Option`: a
  function returns `none` exactly when the C code would panic, and `none`
  likewise marks the undefined division `US_PER_SEC / 0` on the `freq`
  read path.
* The build-time choice between high-resolution timers (`USE_HR_TIMERS`)
  and low-resolution timers is an explicit `TimerConfig` parameter; the
  low-resolution kernel `HZ` constant is its argument.
-/

set_option autoImplicit false

namespace Gpioman

/-- gpioman.c:21 `#define LOGIC_HIGH 1`. -/
def LOGIC_HIGH : Nat := 1

/-- gpioman.c:22 `#define LOGIC_LOW 0`. -/
def LOGIC_LOW : Nat := 0

/-- gpioman.c:24 `#define MS_PER_SEC 1000`. -/
def MS_PER_SEC : Nat := 1000

/-- gpioman.c:25 `#define US_PER_SEC 1000000`. -/
def US_PER_SEC : Nat := 1000000

/-- The sysfs attribute name of gpioman.c:363 (`status`). -/
def attr_status : String := "status"

/-- The sysfs attribute name of gpioman.c:366 (`freq`). -/
def attr_freq : String := "freq"

/-- The sysfs attribute name of gpioman.c:369 (`on_cycles`). -/
def attr_on_cycles : String := "on_cycles"

/-- The sysfs attribute name of gpioman.c:372 (`off_cycles`). -/
def attr_off_cycles : String := "off_cycles"

/-- The sysfs-controlled fields of `struct gpio_line_state`
(gpioman.c:47-70).  The bookkeeping fields (`list`, `kobj`, `devname`,
`timer`, `gpio_descriptor`) carry no pulse-machine state and are modelled
separately (events / the `Entity` registry model below). -/
structure GpioLineState where
  pulse_period : Nat
  on_cycles : Nat
  off_cycles : Nat
  counter : Nat
  pin_ctl_enabled : Bool
  pin_logic_level : Nat
deriving DecidableEq, Repr

/-- Ordered record of the side effects a code path performs:
`setLevel v` is `gpiod_set_value(desc, v)`, `armTimer` is
`hrtimer_start`/`hrtimer_forward_now`/`mod_timer`, `cancelTimer` is
`hrtimer_cancel`/`del_timer`, `releaseCap` is `gpiod_put`. -/
inductive Event where
  | setLevel (v : Nat)
  | armTimer
  | cancelTimer
  | releaseCap
deriving DecidableEq, Repr

/-- The build-time timer backend selection (`#ifdef USE_HR_TIMERS`,
gpioman.c:10-14).  The low-resolution variant carries the kernel `HZ`
compile-time constant (gpioman.c:26). -/
inductive TimerConfig where
  | hr
  | lr (hz : Nat)
deriving DecidableEq, Repr

/-- The duty-cycle transition shared verbatim by `hr_interval_cb`
(gpioman.c:94-115) and `lr_interval_cb` (gpioman.c:141-157).  The C
post-increment `gls->counter++ == x` compares the OLD counter with `x`
and always increments; branches that overwrite `counter` afterwards
(`counter = 0`, `counter = 1`) make the increment moot, which the pure
form writes directly.  Returns `none` exactly when
`BUG_ON(gls->off_cycles == 0)` fires in the LOW branch. -/
def duty_cycle_step (gls : GpioLineState) : Option GpioLineState :=
  if gls.pin_logic_level = LOGIC_HIGH then
    some (if gls.counter = gls.on_cycles then
            (if gls.off_cycles > 0 then
              { gls with counter := gls.counter + 1, pin_logic_level := LOGIC_LOW }
            else
              { gls with counter := 0 })
          else
            { gls with counter := gls.counter + 1 })
  else if gls.pin_logic_level = LOGIC_LOW then
    if gls.off_cycles = 0 then
      none
    else
      some (if gls.counter = gls.on_cycles + gls.off_cycles then
              { gls with counter := 1, pin_logic_level := LOGIC_HIGH }
            else
              { gls with counter := gls.counter + 1 })
  else
    some gls

/-- `hr_interval_cb` (gpioman.c:79-122).  A disabled line returns
`HRTIMER_NORESTART` at once: no state change, no side effect.  Otherwise
the duty-cycle transition runs, then `gpiod_set_value` applies the (new)
level, then `hrtimer_forward_now` re-arms — level first, re-arm second. -/
def hr_interval_cb (gls : GpioLineState) : Option (GpioLineState × List Event) :=
  if gls.pin_ctl_enabled = false then
    some (gls, [])
  else
    (duty_cycle_step gls).map
      (fun g => (g, [Event.setLevel g.pin_logic_level, Event.armTimer]))

/-- `lr_interval_cb` (gpioman.c:128-161).  A disabled line returns at
once.  Otherwise `mod_timer` re-arms FIRST (gpioman.c:136), and only then
does the duty-cycle transition run and `gpiod_set_value` apply the new
level (gpioman.c:160) — the opposite order from `hr_interval_cb`.
Events are recorded for completed (non-`BUG_ON`) invocations. -/
def lr_interval_cb (gls : GpioLineState) : Option (GpioLineState × List Event) :=
  if gls.pin_ctl_enabled = false then
    some (gls, [])
  else
    (duty_cycle_step gls).map
      (fun g => (g, [Event.armTimer, Event.setLevel g.pin_logic_level]))

/-- The state part of one high-resolution tick. -/
def hr_step (gls : GpioLineState) : Option GpioLineState :=
  (hr_interval_cb gls).map Prod.fst

/-- `t` consecutive high-resolution timer ticks. -/
def hr_iter (gls : GpioLineState) : Nat → Option GpioLineState
  | 0 => some gls
  | t + 1 => (hr_iter gls t).bind hr_step

/-- `set_gls_frequency` (gpioman.c:214-245).  In the `USE_HR_TIMERS`
build the period is `US_PER_SEC / freq` microseconds with NO clamp; in
the low-resolution build `freq` is first clamped to the kernel `HZ`
(gpioman.c:223-227) and the period is `MS_PER_SEC / freq` milliseconds.
If the line is enabled the output is asserted HIGH and the timer is
started (`freq > 0`) or cancelled (`freq = 0`).  The only call site,
`write_sysfs_attribute`, passes a validated non-negative value, embedded
as `Nat`. -/
def set_gls_frequency (cfg : TimerConfig) (gls : GpioLineState) (freq : Nat) :
    GpioLineState × List Event :=
  match cfg with
  | TimerConfig.hr =>
    let gls := { gls with pulse_period := if freq > 0 then US_PER_SEC / freq else 0 }
    if gls.pin_ctl_enabled then
      (gls, [Event.setLevel LOGIC_HIGH] ++
            (if freq > 0 then [Event.armTimer] else [Event.cancelTimer]))
    else
      (gls, [])
  | TimerConfig.lr hz =>
    let f := if freq > hz then hz else freq
    let gls := { gls with pulse_period := if f > 0 then MS_PER_SEC / f else 0 }
    if gls.pin_ctl_enabled then
      (gls, [Event.setLevel LOGIC_HIGH] ++
            (if f > 0 then [Event.armTimer] else [Event.cancelTimer]))
    else
      (gls, [])

/-- The `pulse_period` value `set_gls_frequency` computes (helper used to
state its frame property once). -/
def cfg_period (cfg : TimerConfig) (freq : Nat) : Nat :=
  match cfg with
  | TimerConfig.hr => if freq > 0 then US_PER_SEC / freq else 0
  | TimerConfig.lr hz =>
    let f := if freq > hz then hz else freq
    if f > 0 then MS_PER_SEC / f else 0

/-- Return value of a sysfs store callback: `einval` models the
`return EINVAL` path (gpioman.c:262; the C constant is 22), `consumed n`
models `return count` (gpioman.c:315). -/
inductive SysfsRet where
  | einval
  | consumed (count : Nat)
deriving DecidableEq, Repr

/-- Result of a sysfs write: the line state afterwards, the side effects
performed, and the returned value. -/
structure WriteOutcome where
  gls : GpioLineState
  events : List Event
  ret : SysfsRet
deriving DecidableEq, Repr

/-- `write_sysfs_attribute` (gpioman.c:248-316).  `parsed` is the
`kstrtoint` result (`none` = parse failure).  Parse failure or a negative
value returns `EINVAL` before any state is touched.  Every validated
write first resets `counter` to 0 (gpioman.c:268) and then dispatches on
the attribute name; a `status` value other than 0/1 falls through the C
`switch` and still returns `count` (success). -/
def write_sysfs_attribute (cfg : TimerConfig) (gls : GpioLineState)
    (attr : String) (parsed : Option Int) (count : Nat) : WriteOutcome :=
  match parsed with
  | none => ⟨gls, [], SysfsRet.einval⟩
  | some var =>
    if var < 0 then
      ⟨gls, [], SysfsRet.einval⟩
    else
      let gls := { gls with counter := 0 }
      if attr = attr_status then
        if var = 0 then
          ⟨{ gls with pin_ctl_enabled := false, pin_logic_level := LOGIC_LOW },
           [Event.cancelTimer, Event.setLevel LOGIC_LOW], SysfsRet.consumed count⟩
        else if var = 1 then
          ⟨{ gls with pin_logic_level := LOGIC_HIGH, pin_ctl_enabled := true },
           [Event.setLevel LOGIC_HIGH] ++
             (if gls.pulse_period > 0 then [Event.armTimer] else []),
           SysfsRet.consumed count⟩
        else
          ⟨gls, [], SysfsRet.consumed count⟩
      else if attr = attr_freq then
        let r := set_gls_frequency cfg gls var.toNat
        ⟨r.1, r.2, SysfsRet.consumed count⟩
      else if attr = attr_on_cycles then
        ⟨{ gls with on_cycles := var.toNat }, [], SysfsRet.consumed count⟩
      else if attr = attr_off_cycles then
        ⟨{ gls with off_cycles := var.toNat }, [], SysfsRet.consumed count⟩
      else
        ⟨gls, [], SysfsRet.consumed count⟩

/-- `read_sysfs_attribute` (gpioman.c:174-198).  Returns the integer that
would be printed.  `none` models undefined behaviour: the `freq` branch
divides by `pulse_period` UNGUARDED (gpioman.c:191/193), so
`pulse_period = 0` is a division by zero; an unmatched name leaves the C
`var` uninitialized. -/
def read_sysfs_attribute (cfg : TimerConfig) (gls : GpioLineState)
    (attr : String) : Option Nat :=
  if attr = attr_status then
    some (if gls.pin_ctl_enabled then 1 else 0)
  else if attr = attr_on_cycles then
    some gls.on_cycles
  else if attr = attr_off_cycles then
    some gls.off_cycles
  else if attr = attr_freq then
    (match cfg with
     | TimerConfig.hr =>
       if gls.pulse_period = 0 then none else some (US_PER_SEC / gls.pulse_period)
     | TimerConfig.lr _ =>
       if gls.pulse_period = 0 then none else some (MS_PER_SEC / gls.pulse_period))
  else
    none

/-- The line state `initialize_gls` (gpioman.c:450-498) leaves behind:
the struct is `kzalloc`ed (all zero, gpioman.c:524), then
`pulse_period := 0`, `pin_logic_level := LOGIC_LOW`, `on_cycles := 1`,
`off_cycles := 1`; `counter` and `pin_ctl_enabled` keep their zero
values. -/
def init_gls : GpioLineState :=
  { pulse_period := 0, on_cycles := 1, off_cycles := 1, counter := 0,
    pin_ctl_enabled := false, pin_logic_level := LOGIC_LOW }

/-- The state a `status = 1` enabling write leaves a line in, with the
given period and duty-cycle settings: `counter = 0`, level HIGH, enabled
(gpioman.c:268, 284-299). -/
def enabled_start (p onc offc : Nat) : GpioLineState :=
  { pulse_period := p, on_cycles := onc, off_cycles := offc, counter := 0,
    pin_ctl_enabled := true, pin_logic_level := LOGIC_HIGH }

/-- The state after a successful sysfs write, `none` on `EINVAL`. -/
def write_state (cfg : TimerConfig) (gls : GpioLineState) (attr : String)
    (v : Int) : Option GpioLineState :=
  match write_sysfs_attribute cfg gls attr (some v) 1 with
  | ⟨g, _, SysfsRet.consumed _⟩ => some g
  | ⟨_, _, SysfsRet.einval⟩ => none

/-- A concrete run through the public interface: set `freq = 1000`,
enable with `status = 1`, let the timer tick twice (the line is now in
its LOW phase), then write `off_cycles = 0`. -/
def c2_chain : Option GpioLineState :=
  (write_state TimerConfig.hr init_gls attr_freq 1000).bind (fun s1 =>
    (write_state TimerConfig.hr s1 attr_status 1).bind (fun s2 =>
      (hr_iter s2 2).bind (fun s3 =>
        write_state TimerConfig.hr s3 attr_off_cycles 0)))

/-- Registry view of one line entity: the kobject reference count, whether
teardown has run (`list_del` + `kfree`, gpioman.c:406-407), and the side
effects performed so far. -/
structure Entity where
  refcount : Nat
  destroyed : Bool
  events : List Event
deriving DecidableEq, Repr

/-- Teardown steps of `gpio_line_state_release_func` (gpioman.c:392-408),
in source order: cancel the timer, force the output LOW, release the GPIO
descriptor (then `list_del` and `kfree`, recorded as `destroyed`). -/
def gpio_line_state_release_func : List Event :=
  [Event.cancelTimer, Event.setLevel LOGIC_LOW, Event.releaseCap]

/-- Modelled from the spec: the reference-counting discipline of the
kernel kobject layer (`kobject_put`, invoked by `rm_func` gpioman.c:384
and by each handle holder), which is kernel code, not part of this
repository's source.  Spec §4.4: "release(handle): decrements refcount;
at zero, cancels any armed timer, forces the output LOW, releases the
output capability, and removes the entity from the registry."  At zero it
runs `gpio_line_state_release_func`, whose steps are embedded from the
source. -/
def kobject_put (e : Entity) : Entity :=
  if e.refcount ≤ 1 then
    { refcount := 0, destroyed := true,
      events := e.events ++ gpio_line_state_release_func }
  else
    { e with refcount := e.refcount - 1 }

/-- A live entity with `n` outstanding references and no teardown yet. -/
def live_entity (n : Nat) : Entity :=
  { refcount := n, destroyed := false, events := [] }

/-- `k` successive `kobject_put` calls. -/
def put_iter (e : Entity) : Nat → Entity
  | 0 => e
  | k + 1 => kobject_put (put_iter e k)

/-! ## Helper lemmas -/

lemma set_gls_frequency_state (cfg : TimerConfig) (s : GpioLineState) (f : Nat) :
    (set_gls_frequency cfg s f).1 = { s with pulse_period := cfg_period cfg f } := by
  cases cfg <;> simp only [set_gls_frequency, cfg_period] <;> split <;> rfl

lemma hr_step_enabled (s : GpioLineState) (he : s.pin_ctl_enabled = true) :
    hr_step s = duty_cycle_step s := by
  simp only [hr_step, hr_interval_cb, he]
  cases duty_cycle_step s <;> simp

/-- State invariant of repeated ticks when both phases are non-empty:
after `t ≥ 1` ticks from the post-enable state, the counter sits at
`(t - 1) % (onc + offc) + 1` and the level is HIGH exactly on the first
`onc` residues. -/
lemma hr_iter_pos_off (p onc offc : Nat) (hon : 1 ≤ onc) (hoff : 1 ≤ offc) :
    ∀ t, 1 ≤ t →
      hr_iter (enabled_start p onc offc) t =
        some { pulse_period := p, on_cycles := onc, off_cycles := offc,
               counter := (t - 1) % (onc + offc) + 1, pin_ctl_enabled := true,
               pin_logic_level :=
                 if (t - 1) % (onc + offc) < onc then LOGIC_HIGH else LOGIC_LOW } := by
  intro t
  induction t with
  | zero => intro h; omega
  | succ n ih =>
    intro _
    rcases Nat.eq_zero_or_pos n with h0 | hn
    · subst h0
      have hne : ¬ ((0 : Nat) = onc) := by omega
      have hpos : 0 < onc := hon
      simp [hr_iter, hr_step, hr_interval_cb, duty_cycle_step, enabled_start,
            LOGIC_HIGH, LOGIC_LOW, hne, hpos]
    · have IH := ih hn
      have hP : 0 < onc + offc := by omega
      have hrlt : (n - 1) % (onc + offc) < onc + offc := Nat.mod_lt _ hP
      have hmod : n % (onc + offc) = ((n - 1) % (onc + offc) + 1) % (onc + offc) := by
        conv_lhs => rw [show n = n - 1 + 1 by omega]
        rw [Nat.add_mod, Nat.mod_eq_of_lt (show (1 : Nat) < onc + offc by omega)]
      rw [show n + 1 - 1 = n from rfl]
      simp only [hr_iter]
      rw [IH, Option.some_bind, hr_step_enabled _ rfl]
      by_cases hlt : (n - 1) % (onc + offc) < onc
      · by_cases heq : (n - 1) % (onc + offc) + 1 = onc
        · have hlt2 : (n - 1) % (onc + offc) + 1 < onc + offc := by omega
          have hmod2 : n % (onc + offc) = (n - 1) % (onc + offc) + 1 := by
            rw [hmod]; exact Nat.mod_eq_of_lt hlt2
          have hnot : ¬ (n % (onc + offc) < onc) := by omega
          have hoffpos : 0 < offc := hoff
          simp [duty_cycle_step, LOGIC_HIGH, LOGIC_LOW, hlt, heq, hmod2, hnot, hoffpos]
        · have hlt2 : (n - 1) % (onc + offc) + 1 < onc := by omega
          have hmod2 : n % (onc + offc) = (n - 1) % (onc + offc) + 1 := by
            rw [hmod]; exact Nat.mod_eq_of_lt (by omega)
          have hyes : n % (onc + offc) < onc := by omega
          simp [duty_cycle_step, LOGIC_HIGH, LOGIC_LOW, hlt, heq, hmod2, hyes]
          rw [if_pos hlt2]
      · have hoffne : ¬ (offc = 0) := by omega
        by_cases heq : (n - 1) % (onc + offc) + 1 = onc + offc
        · have hmod2 : n % (onc + offc) = 0 := by
            rw [hmod, heq]; exact Nat.mod_self _
          have hyes : n % (onc + offc) < onc := by omega
          simp [duty_cycle_step, LOGIC_HIGH, LOGIC_LOW, hlt, heq, hmod2, hyes, hoffne]
          rw [if_pos (show 0 < onc by omega)]
        · have hlt2 : (n - 1) % (onc + offc) + 1 < onc + offc := by omega
          have hmod2 : n % (onc + offc) = (n - 1) % (onc + offc) + 1 := by
            rw [hmod]; exact Nat.mod_eq_of_lt hlt2
          have hnot : ¬ (n % (onc + offc) < onc) := by omega
          simp [duty_cycle_step, LOGIC_HIGH, LOGIC_LOW, hlt, heq, hmod2, hnot, hoffne]
          rw [if_neg (show ¬ ((n - 1) % (onc + offc) + 1 < onc) by omega)]

/-- State invariant of repeated ticks in the degenerate `off_cycles = 0`
configuration: the line stays HIGH and the counter cycles through
`[0, onc]`. -/
lemma hr_iter_zero_off (p onc : Nat) (hon : 1 ≤ onc) :
    ∀ t, hr_iter (enabled_start p onc 0) t =
      some { pulse_period := p, on_cycles := onc, off_cycles := 0,
             counter := t % (onc + 1), pin_ctl_enabled := true,
             pin_logic_level := LOGIC_HIGH } := by
  intro t
  induction t with
  | zero => simp [hr_iter, enabled_start]
  | succ n ih =>
    simp only [hr_iter]
    rw [ih, Option.some_bind, hr_step_enabled _ rfl]
    have h1 : (1 : Nat) % (onc + 1) = 1 := Nat.mod_eq_of_lt (by omega)
    by_cases heq : n % (onc + 1) = onc
    · have hmod2 : (n + 1) % (onc + 1) = 0 := by
        rw [Nat.add_mod, heq, h1, Nat.mod_self]
      simp [duty_cycle_step, LOGIC_HIGH, LOGIC_LOW, heq, hmod2]
    · have hlt : n % (onc + 1) < onc := by
        have := Nat.mod_lt n (show 0 < onc + 1 by omega)
        omega
      have hmod2 : (n + 1) % (onc + 1) = n % (onc + 1) + 1 := by
        rw [Nat.add_mod, h1]; exact Nat.mod_eq_of_lt (by omega)
      simp [duty_cycle_step, LOGIC_HIGH, LOGIC_LOW, heq, hmod2]

/-! ## Claims -/

/-- Claim C1 (amended): periodicity of the tick callback for
`on_cycles ≥ 1`.  Starting from the state an enabling write leaves behind
(`counter = 0`, level HIGH, enabled, `period_ticks > 0`), the level the
`t`-th tick applies is HIGH iff `(t - 1) % (on_cycles + off_cycles) <
on_cycles`: HIGH for exactly `on_cycles` consecutive ticks, then LOW for
exactly `off_cycles`, cycling forever (the bound `on_cycles + off_cycles
< 2 ^ 31` keeps every counter value inside the C `int` range).  The
original claim's `on_cycles = 0` case is refuted separately. -/
theorem hr_tick_periodicity (p onc offc t : Nat) (hon : 1 ≤ onc) (_hp : 1 ≤ p)
    (_hbound : onc + offc < 2 ^ 31) (ht : 1 ≤ t) :
    ∃ s, hr_iter (enabled_start p onc offc) t = some s ∧
      (s.pin_logic_level = LOGIC_HIGH ↔ (t - 1) % (onc + offc) < onc) := by
  rcases Nat.eq_zero_or_pos offc with hoff | hoff
  · subst hoff
    refine ⟨_, hr_iter_zero_off p onc hon t, ?_⟩
    simp only [LOGIC_HIGH, Nat.add_zero]
    simp [Nat.mod_lt _ (show 0 < onc by omega)]
  · refine ⟨_, hr_iter_pos_off p onc offc hon hoff t ht, ?_⟩
    by_cases hlt : (t - 1) % (onc + offc) < onc
    · simp [hlt, LOGIC_HIGH]
    · simp [hlt, LOGIC_HIGH, LOGIC_LOW]

/-- Witness for `hr_tick_periodicity` at `p = 3`, `on_cycles = 2`,
`off_cycles = 1`, `t = 5`. -/
theorem hr_tick_periodicity_witness :
    ∃ s, hr_iter (enabled_start 3 2 1) 5 = some s ∧
      (s.pin_logic_level = LOGIC_HIGH ↔ (5 - 1) % (2 + 1) < 2) :=
  hr_tick_periodicity 3 2 1 5 (by decide) (by decide) (by decide) (by decide)

/-- Claim C1 counterexample: with `on_cycles = 0`, `off_cycles = 3` the
periodicity law fails.  The claimed law makes every tick LOW
(`(t-1) % 3 < 0` never holds), but the code's 4th tick applies HIGH: the
LOW→HIGH wrap re-seeds `counter = 1`, and with `on_cycles = 0` the
counter never again equals `on_cycles`, so the line in fact sticks HIGH
from tick 4 on. -/
theorem hr_tick_periodicity_cex :
    (hr_iter (enabled_start 1 0 3) 4).map (fun s => s.pin_logic_level) =
        some LOGIC_HIGH ∧
      ¬ ((4 - 1) % (0 + 3) < 0) := by decide

/-- Claim C2: the `BUG_ON(off_cycles == 0)` in the LOW branch of the tick
callback is REACHABLE through the public attribute-write interface, so
the claimed safety invariant fails.  The concrete run writes
`freq = 1000` and `status = 1` to a fresh line, lets the timer tick twice
(the line is now mid-LOW-phase), then writes `off_cycles = 0` — every
write passes validation — after which the next tick hits the fatal
assertion (`hr_interval_cb` returns `none`). -/
theorem bug_on_reachable :
    c2_chain = some ⟨1000, 1, 0, 0, true, LOGIC_LOW⟩ ∧
      hr_interval_cb ⟨1000, 1, 0, 0, true, LOGIC_LOW⟩ = none := by decide

/-- Claim C3 counterexample: writing `2` to `status` is NOT rejected: the
write returns success (`count` bytes consumed, not `EINVAL`) and the line
state is changed (`counter` is reset from 5 to 0). -/
theorem status_write_two_cex :
    write_sysfs_attribute TimerConfig.hr ⟨0, 1, 1, 5, false, 0⟩ attr_status
        (some 2) 4 =
      ⟨⟨0, 1, 1, 0, false, 0⟩, [], SysfsRet.consumed 4⟩ ∧
    SysfsRet.consumed 4 ≠ SysfsRet.einval ∧
    (⟨0, 1, 1, 0, false, 0⟩ : GpioLineState) ≠ ⟨0, 1, 1, 5, false, 0⟩ := by decide

/-- Claim C3 (amended): only negative or unparsable `status` writes are
rejected; a write of any value `v ≥ 2` falls through the C `switch`
unmatched and is ACCEPTED: it returns success, resets `counter` to 0, and
leaves every other field, the output and the timer untouched. -/
theorem status_write_large_value (cfg : TimerConfig) (s : GpioLineState)
    (v : Int) (count : Nat) (hv : 2 ≤ v) :
    write_sysfs_attribute cfg s attr_status (some v) count =
      ⟨{ s with counter := 0 }, [], SysfsRet.consumed count⟩ := by
  have h0 : ¬ (v < 0) := by omega
  have h1 : ¬ (v = 0) := by omega
  have h2 : ¬ (v = 1) := by omega
  simp [write_sysfs_attribute, h0, h1, h2]

/-- Witness for `status_write_large_value` at `v = 7`. -/
theorem status_write_large_value_witness :
    write_sysfs_attribute TimerConfig.hr ⟨100, 2, 3, 9, true, 1⟩ attr_status
        (some 7) 2 =
      ⟨{ (⟨100, 2, 3, 9, true, 1⟩ : GpioLineState) with counter := 0 }, [],
       SysfsRet.consumed 2⟩ :=
  status_write_large_value TimerConfig.hr ⟨100, 2, 3, 9, true, 1⟩ 7 2 (by decide)

/-- Claim C4 counterexample: in the high-resolution build there is no
clamp, and the requested positive frequency `2000000` (> the
`US_PER_SEC = 10^6` resolution) yields `pulse_period = 10^6 / (2*10^6) =
0` — exactly the zero interval the claim rules out. -/
theorem hr_set_frequency_zero_cex :
    0 < 2000000 ∧
      (set_gls_frequency TimerConfig.hr ⟨0, 1, 1, 0, false, 0⟩ 2000000).1.pulse_period
        = 0 := by decide

/-- Claim C4 (amended): the clamp exists only in the low-resolution
build.  There, for any kernel `HZ` with `0 < HZ ≤ 1000` and any requested
`freq > 0`, the resulting `pulse_period` is positive, and a `freq`
exceeding `HZ` yields exactly the `freq = HZ` interval `MS_PER_SEC / HZ`.
In the high-resolution build the period is positive only for
`freq ≤ US_PER_SEC`; beyond that it is zero (see the counterexample). -/
theorem set_frequency_clamping (hz f : Nat) (s : GpioLineState)
    (h1 : 0 < hz) (h2 : hz ≤ MS_PER_SEC) (h3 : 0 < f) :
    (0 < (set_gls_frequency (TimerConfig.lr hz) s f).1.pulse_period ∧
      (hz < f →
        (set_gls_frequency (TimerConfig.lr hz) s f).1.pulse_period =
          MS_PER_SEC / hz)) ∧
    (f ≤ US_PER_SEC →
      0 < (set_gls_frequency TimerConfig.hr s f).1.pulse_period) := by
  rw [set_gls_frequency_state, set_gls_frequency_state]
  constructor
  · constructor
    · by_cases hc : f > hz
      · simp [cfg_period, hc, h1]
        exact Nat.div_pos h2 h1
      · simp [cfg_period, hc, h3]
        exact Nat.div_pos (by omega) h3
    · intro hgt
      simp [cfg_period, hgt, h1]
  · intro hle
    simp [cfg_period, h3]
    exact Nat.div_pos hle h3

/-- Witness for `set_frequency_clamping` at `HZ = 250`, `freq = 300`. -/
theorem set_frequency_clamping_witness :
    (0 < (set_gls_frequency (TimerConfig.lr 250) init_gls 300).1.pulse_period ∧
      (250 < 300 →
        (set_gls_frequency (TimerConfig.lr 250) init_gls 300).1.pulse_period =
          MS_PER_SEC / 250)) ∧
    (300 ≤ US_PER_SEC →
      0 < (set_gls_frequency TimerConfig.hr init_gls 300).1.pulse_period) :=
  set_frequency_clamping 250 300 init_gls (by decide) (by decide) (by decide)

/-- Claim C5: a write whose value fails integer parsing or is negative is
rejected with `EINVAL` and leaves the whole line state unchanged — the
validation happens before any field (including `counter`) is touched, for
every attribute and both timer builds. -/
theorem invalid_write_unchanged (cfg : TimerConfig) (s : GpioLineState)
    (attr : String) (parsed : Option Int) (count : Nat)
    (h : parsed = none ∨ ∃ v, parsed = some v ∧ v < 0) :
    write_sysfs_attribute cfg s attr parsed count = ⟨s, [], SysfsRet.einval⟩ := by
  rcases h with h | ⟨v, hv, hneg⟩
  · subst h; rfl
  · subst hv
    simp [write_sysfs_attribute, hneg]

/-- Witness for `invalid_write_unchanged`: `on_cycles = -1`. -/
theorem invalid_write_unchanged_witness :
    write_sysfs_attribute TimerConfig.hr init_gls attr_on_cycles (some (-1)) 3 =
      ⟨init_gls, [], SysfsRet.einval⟩ :=
  invalid_write_unchanged TimerConfig.hr init_gls attr_on_cycles (some (-1)) 3
    (Or.inr ⟨-1, rfl, by decide⟩)

/-- Claim C6 counterexample: in the low-resolution path the FIRST side
effect of a tick is the `mod_timer` re-arm; the new level is applied to
the output only afterwards — refuting "apply level, then arm next tick"
for both paths. -/
theorem lr_rearm_before_level_cex :
    lr_interval_cb (enabled_start 5 1 1) =
      some (⟨5, 1, 1, 1, true, LOGIC_HIGH⟩,
            [Event.armTimer, Event.setLevel LOGIC_HIGH]) := by decide

/-- Claim C6 (amended): on every completed tick of an enabled line the
high-resolution callback applies the new level and then re-arms, while
the low-resolution callback re-arms first and applies the new level
second. -/
theorem tick_event_order (s s2 : GpioLineState) (evs : List Event)
    (he : s.pin_ctl_enabled = true) :
    (hr_interval_cb s = some (s2, evs) →
      evs = [Event.setLevel s2.pin_logic_level, Event.armTimer]) ∧
    (lr_interval_cb s = some (s2, evs) →
      evs = [Event.armTimer, Event.setLevel s2.pin_logic_level]) := by
  constructor
  · intro h
    rcases hd : duty_cycle_step s with _ | g
    · simp [hr_interval_cb, he, hd] at h
    · simp [hr_interval_cb, he, hd] at h
      rcases h with ⟨h1, h2⟩
      subst h1; subst h2; rfl
  · intro h
    rcases hd : duty_cycle_step s with _ | g
    · simp [lr_interval_cb, he, hd] at h
    · simp [lr_interval_cb, he, hd] at h
      rcases h with ⟨h1, h2⟩
      subst h1; subst h2; rfl

/-- Witness for `tick_event_order` at an enabled concrete line. -/
theorem tick_event_order_witness :
    [Event.setLevel (1 : Nat), Event.armTimer] =
      [Event.setLevel ((⟨5, 1, 1, 1, true, 1⟩ : GpioLineState).pin_logic_level),
       Event.armTimer] :=
  (tick_event_order (enabled_start 5 1 1) ⟨5, 1, 1, 1, true, 1⟩
      [Event.setLevel 1, Event.armTimer] rfl).1 (by decide)

/-- Claim C7: reading `freq` divides by `pulse_period` UNGUARDED
(gpioman.c:191/193), and a freshly created line has `pulse_period = 0`
(gpioman.c:463), so the very first `freq` read on a new line is a
division by zero (modelled as `none`) in both timer builds — the read is
not well-defined for every state. -/
theorem freq_read_div_by_zero :
    init_gls.pulse_period = 0 ∧
      read_sysfs_attribute TimerConfig.hr init_gls attr_freq = none ∧
      read_sysfs_attribute (TimerConfig.lr 250) init_gls attr_freq = none := by
  refine ⟨rfl, ?_, ?_⟩ <;> rfl

lemma put_iter_lt (n k : Nat) (h : k < n) :
    put_iter (live_entity n) k = ⟨n - k, false, []⟩ := by
  induction k with
  | zero => rfl
  | succ m ih =>
    have hm : m < n := by omega
    simp only [put_iter]
    rw [ih hm]
    have h2 : ¬ (n - m ≤ 1) := by omega
    simp [kobject_put, h2]
    omega

/-- Claim C8: with `n ≥ 1` outstanding references, the first `n - 1`
`kobject_put` calls only decrement the refcount — the entity is not
destroyed and the GPIO descriptor (`output capability`) is not released —
and exactly the `n`-th call runs the teardown
(`gpio_line_state_release_func`: cancel timer, force LOW, `gpiod_put`,
`list_del` + `kfree`), releasing the capability exactly once. -/
theorem refcount_teardown (n : Nat) (hn : 1 ≤ n) :
    (∀ k, k < n → (put_iter (live_entity n) k).destroyed = false ∧
        Event.releaseCap ∉ (put_iter (live_entity n) k).events) ∧
    (put_iter (live_entity n) n).destroyed = true ∧
    (put_iter (live_entity n) n).events.count Event.releaseCap = 1 := by
  have hfinal : put_iter (live_entity n) n =
      ⟨0, true, gpio_line_state_release_func⟩ := by
    obtain ⟨m, rfl⟩ : ∃ m, n = m + 1 := ⟨n - 1, by omega⟩
    simp only [put_iter]
    rw [put_iter_lt (m + 1) m (by omega)]
    have h1 : m + 1 - m = 1 := by omega
    rw [h1]
    rfl
  refine ⟨?_, ?_, ?_⟩
  · intro k hk
    rw [put_iter_lt n k hk]
    exact ⟨rfl, by simp⟩
  · rw [hfinal]
  · rw [hfinal]
    rfl

/-- Witness for `refcount_teardown` at `n = 3` references. -/
theorem refcount_teardown_witness :
    (put_iter (live_entity 3) 2).destroyed = false ∧
      Event.releaseCap ∉ (put_iter (live_entity 3) 2).events ∧
      (put_iter (live_entity 3) 3).destroyed = true ∧
      (put_iter (live_entity 3) 3).events.count Event.releaseCap = 1 := by
  obtain ⟨h1, h2, h3⟩ := refcount_teardown 3 (by decide)
  exact ⟨(h1 2 (by decide)).1, (h1 2 (by decide)).2, h2, h3⟩

/-- Claim C9: every attribute write that passes integer validation
(parsed, non-negative) resets `counter` to 0 before dispatching on the
attribute name (gpioman.c:268) — including `freq` writes and `status`
writes matching neither `switch` case — so `counter = 0` holds after any
accepted write, to any attribute name, in both timer builds. -/
theorem accepted_write_resets_counter (cfg : TimerConfig) (s : GpioLineState)
    (attr : String) (v : Int) (count : Nat) (hv : 0 ≤ v) :
    (write_sysfs_attribute cfg s attr (some v) count).gls.counter = 0 := by
  have h0 : ¬ (v < 0) := by omega
  simp only [write_sysfs_attribute]
  rw [if_neg h0]
  split_ifs <;> simp [set_gls_frequency_state]

/-- Witness for `accepted_write_resets_counter`: a `freq` write to a line
whose counter is 7. -/
theorem accepted_write_resets_counter_witness :
    (write_sysfs_attribute TimerConfig.hr ⟨100, 2, 2, 7, true, 1⟩ attr_freq
        (some 5) 1).gls.counter = 0 :=
  accepted_write_resets_counter TimerConfig.hr ⟨100, 2, 2, 7, true, 1⟩ attr_freq
    5 1 (by decide)

/-- Claim C10: frame property of `set_gls_frequency` — among the stored
fields it changes only `pulse_period`: `on_cycles`, `off_cycles`,
`counter`, `pin_ctl_enabled` and the STORED `pin_logic_level` are all
preserved, in both timer builds; yet when the line is enabled it drives
the PHYSICAL output HIGH (`gpiod_set_value(.., LOGIC_HIGH)`), so a line
mid-LOW-phase keeps `pin_logic_level = LOW` while its output has just
been driven HIGH. -/
theorem set_frequency_frame (cfg : TimerConfig) (s : GpioLineState) (f : Nat) :
    (set_gls_frequency cfg s f).1.on_cycles = s.on_cycles ∧
    (set_gls_frequency cfg s f).1.off_cycles = s.off_cycles ∧
    (set_gls_frequency cfg s f).1.counter = s.counter ∧
    (set_gls_frequency cfg s f).1.pin_ctl_enabled = s.pin_ctl_enabled ∧
    (set_gls_frequency cfg s f).1.pin_logic_level = s.pin_logic_level ∧
    (s.pin_ctl_enabled = true →
      Event.setLevel LOGIC_HIGH ∈ (set_gls_frequency cfg s f).2) := by
  refine ⟨?_, ?_, ?_, ?_, ?_, ?_⟩
  · rw [set_gls_frequency_state]
  · rw [set_gls_frequency_state]
  · rw [set_gls_frequency_state]
  · rw [set_gls_frequency_state]
  · rw [set_gls_frequency_state]
  · intro he
    cases cfg <;> simp [set_gls_frequency, he]

/-- Witness for `set_frequency_frame`: an enabled line mid-LOW-phase
keeps its stored LOW level while the HIGH assertion goes to the
output. -/
theorem set_frequency_frame_witness :
    (set_gls_frequency TimerConfig.hr ⟨1000, 1, 2, 3, true, 0⟩ 10).1.pin_logic_level
        = (⟨1000, 1, 2, 3, true, 0⟩ : GpioLineState).pin_logic_level ∧
      Event.setLevel LOGIC_HIGH ∈
        (set_gls_frequency TimerConfig.hr ⟨1000, 1, 2, 3, true, 0⟩ 10).2 :=
  ⟨(set_frequency_frame TimerConfig.hr ⟨1000, 1, 2, 3, true, 0⟩ 10).2.2.2.2.1,
   (set_frequency_frame TimerConfig.hr ⟨1000, 1, 2, 3, true, 0⟩ 10).2.2.2.2.2 rfl⟩

end Gpioman
